import Mathlib

/-!
Verification of the request pipeline of the `ashara` package (`rest.go`):
payload encoding (JSON and multipart), the retry loop of `Request`, the
shared rate-limit gate (`lockedTo` guarded by a `sync.RWMutex`), and the
per-attempt classification performed by `handleRequest`.

Modelling conventions:
* byte sequences are `List Char` (all data involved is ASCII);
* `time.Time` values are `Int` nanoseconds since the epoch, with `0`
  standing for the zero `time.Time` (`IsZero`);
* `float32 retry_after` values are `Rat`; the Go conversion
  `time.Duration(f)` truncates toward zero, modelled by `goTrunc`;
* the network is an oracle (`NetEnv`) supplying, per attempt, the outcome
  of each fallible stage of `handleRequest` in source order:
  `http.NewRequest`, `HTTPClient.Do`, `io.ReadAll`, and the result of
  `json.Unmarshal` of the body into `rateLimitError`.
-/

namespace Ashara

/-- `time.Second` in nanoseconds (`time.Duration` counts nanoseconds). -/
def nsPerSecond : Int := 1000000000

/-- Go conversion of a float to an integer type truncates toward zero.
`time.Duration(rateErr.RetryAfter + 5)` is `goTrunc (r + 5)`, which the
source then multiplies by `time.Second`. On a normalized rational,
T-division of the numerator by the denominator is exactly truncation
toward zero. -/
def goTrunc (q : Rat) : Int := Int.tdiv q.num (Int.ofNat q.den)

/-- `bytes.Replace(s, old, new, -1)` with one unit of fuel per scanned
byte: the scan is left-to-right and non-overlapping, each step consumes at
least one input byte, so `s.length` fuel is enough. -/
def replaceAllFuel (old new : List Char) : Nat → List Char → List Char
  | 0, s => s
  | _ + 1, [] => []
  | fuel + 1, c :: rest =>
    if old.isPrefixOf (c :: rest) && !old.isEmpty then
      new ++ replaceAllFuel old new fuel (List.drop (old.length - 1) rest)
    else
      c :: replaceAllFuel old new fuel rest

/-- `bytes.Replace(s, old, new, -1)`. -/
def replaceAll (old new s : List Char) : List Char := replaceAllFuel old new s.length s

/-- Modelled from the spec: the constant `requestSwapNullArray` is declared
outside the files under `src/`; per the spec, the pattern is the serialized
JSON `null` standing where the schema expects an array. -/
def requestSwapNullArray : List Char := ['n', 'u', 'l', 'l']

/-- Modelled from the spec: the constant `requestSwapEmptyArray` is declared
outside the files under `src/`; per the spec, the replacement is the
serialized empty JSON array. -/
def requestSwapEmptyArray : List Char := ['[', ']']

/-- The post-serialization patch both `Request` and `RequestWithFiles`
apply to the output of `json.Marshal`:
`bytes.Replace(raw, requestSwapNullArray, requestSwapEmptyArray, -1)`. -/
def patchBody (raw : List Char) : List Char :=
  replaceAll requestSwapNullArray requestSwapEmptyArray raw

/-- Content type of the JSON payload part; the constant `CONTENT_TYPE_JSON`
is declared outside the files under `src/`. Its value is irrelevant to the
claims; only its placement in the part header matters. -/
def CONTENT_TYPE_JSON : String := "application/json"

/-- The `*bytes.Reader` created once by `Request` from the patched payload:
the underlying bytes plus the read position. `http.NewRequest` snapshots it
at its current position; a completed round-trip reads it to the end. -/
structure BytesReader where
  data : List Char
  pos : Nat
deriving DecidableEq, Repr

/-- Per-attempt network oracle, in the order the fallible stages occur in
`handleRequest`: `newRequestErr` is a failure of `http.NewRequest`,
`doErr` a transport failure of `HTTPClient.Do` (modelled as a dial failure,
before any request body is consumed), `statusCode`/`status` the response
status, `bodyErr` a failure of `io.ReadAll`, `respBody` the response body,
and `rateParse` the `RetryAfter` field obtained by `json.Unmarshal` of the
body into `rateLimitError` (`none` when the body does not parse, in which
case the zero value `0` is used, the error being ignored). -/
structure NetEnv where
  newRequestErr : Option String
  doErr : Option String
  statusCode : Nat
  status : String
  bodyErr : Option String
  respBody : List Char
  rateParse : Option Rat
deriving DecidableEq, Repr

/-- Lock operations a goroutine performs on the shared `sync.RWMutex`. -/
inductive LockOp where
  | rlock
  | runlock
  | lock
  | unlock
deriving DecidableEq, Repr

/-- Everything one call of `handleRequest` does, besides its three return
values `(raw, err, finished)`: the final `lockedTo` (`lockedToAfter`), the
deadline it installs and sleeps until on a 429, whether `io.ReadAll` was
invoked, the bytes handed to the transport (`sent`, `none` when no request
went out), the reader state afterwards, and the `sync.RWMutex` operations
it performs. -/
structure AttemptRecord where
  raw : Option (List Char)
  err : Option String
  finished : Bool
  lockedToAfter : Int
  installedDeadline : Option Int
  sleptUntil : Option Int
  bodyRead : Bool
  sent : Option (List Char)
  readerAfter : BytesReader
  lockOps : List LockOp
deriving DecidableEq, Repr

/-- `BaseRestClient.handleRequest`: one HTTP attempt. Mirrors the source:
build the request (failure → retryable), send it (failure → retryable),
`204` → finished success with nil body before any body read, body read
failure → finished error, `429` → install `now + time.Second *
time.Duration(retryAfter + 5)` as `lockedTo` under `mu.Lock`, sleep until
it, reset `lockedTo` to the zero time under `mu.Lock`, and report a
retryable "rate limit" failure; other non-2xx → finished error carrying
`res.Status + " :: " + string(body)`; otherwise finished success. -/
def handleRequest (lockedTo now : Int) (reader : BytesReader) (env : NetEnv) :
    AttemptRecord :=
  match env.newRequestErr with
  | some m =>
    { raw := none, err := some ("failed to initialize new request: " ++ m),
      finished := false, lockedToAfter := lockedTo, installedDeadline := none,
      sleptUntil := none, bodyRead := false, sent := none, readerAfter := reader,
      lockOps := [] }
  | none =>
    match env.doErr with
    | some m =>
      { raw := none, err := some ("failed to process request: " ++ m),
        finished := false, lockedToAfter := lockedTo, installedDeadline := none,
        sleptUntil := none, bodyRead := false, sent := none, readerAfter := reader,
        lockOps := [] }
    | none =>
      let sentBytes := reader.data.drop reader.pos
      let readerDone : BytesReader := ⟨reader.data, reader.data.length⟩
      if env.statusCode = 204 then
        { raw := none, err := none, finished := true, lockedToAfter := lockedTo,
          installedDeadline := none, sleptUntil := none, bodyRead := false,
          sent := some sentBytes, readerAfter := readerDone, lockOps := [] }
      else
        match env.bodyErr with
        | some m =>
          { raw := none, err := some ("failed to parse response body (json): " ++ m),
            finished := true, lockedToAfter := lockedTo, installedDeadline := none,
            sleptUntil := none, bodyRead := true, sent := some sentBytes,
            readerAfter := readerDone, lockOps := [] }
        | none =>
          if env.statusCode = 429 then
            let retryAfter : Rat := env.rateParse.getD 0
            let deadline : Int := now + nsPerSecond * goTrunc (retryAfter + 5)
            { raw := none, err := some "rate limit", finished := false,
              lockedToAfter := 0, installedDeadline := some deadline,
              sleptUntil := some deadline, bodyRead := true,
              sent := some sentBytes, readerAfter := readerDone,
              lockOps := [LockOp.lock, LockOp.unlock, LockOp.lock, LockOp.unlock] }
          else if env.statusCode < 200 ∨ 299 < env.statusCode then
            { raw := none,
              err := some (env.status ++ " :: " ++ String.mk env.respBody),
              finished := true, lockedToAfter := lockedTo,
              installedDeadline := none, sleptUntil := none, bodyRead := true,
              sent := some sentBytes, readerAfter := readerDone, lockOps := [] }
          else
            { raw := some env.respBody, err := none, finished := true,
              lockedToAfter := lockedTo, installedDeadline := none,
              sleptUntil := none, bodyRead := true, sent := some sentBytes,
              readerAfter := readerDone, lockOps := [] }

/-- Observable scheduler events of one `Request` call: the single
`lockedTo` availability check performed before the loop (`gateCheck`), the
i-th HTTP attempt (`attempt i`, `i` counted from 1 as in the source), and
the inter-attempt backoff `time.Sleep(time.Microsecond * 250 * i)`
(`backoffSleep` carries microseconds). -/
inductive Ev where
  | gateCheck
  | attempt (i : Nat)
  | backoffSleep (micros : Nat)
deriving DecidableEq, Repr

/-- Number of `attempt` events in a trace. -/
def countAttempts : List Ev → Nat
  | [] => 0
  | Ev.attempt _ :: rest => countAttempts rest + 1
  | _ :: rest => countAttempts rest

/-- Number of `gateCheck` events in a trace. -/
def countGateChecks : List Ev → Nat
  | [] => 0
  | Ev.gateCheck :: rest => countGateChecks rest + 1
  | _ :: rest => countGateChecks rest

/-- The backoff sleep durations of a trace, in order. -/
def backoffDelays : List Ev → List Nat
  | [] => []
  | Ev.backoffSleep d :: rest => d :: backoffDelays rest
  | _ :: rest => backoffDelays rest

/-- Result of the bounded retry loop shared by `Request` and
`RequestWithFiles`: the returned pair when an attempt finished, whether the
loop fell out after `MaxRetries` unfinished attempts (`exhausted`), the
event trace, and the bytes each attempt handed to the transport. -/
structure LoopOut where
  raw : Option (List Char)
  err : Option String
  exhausted : Bool
  events : List Ev
  sent : List (Option (List Char))
deriving DecidableEq, Repr

/-- The retry loop of `Request` (rest.go): `for i < MaxRetries { i++;
RLock; handleRequest; if finished return; RUnlock; Sleep(250*i µs) }`.
`fuel` is the remaining iteration budget `MaxRetries - i`, `i` the attempt
counter before increment. The counter `i` is a `uint8` in the source, so
the product `250*i` is computed modulo 256 before the conversion to
`time.Duration` (for i = 1, 2, 3 that gives 250, 244, 238 microseconds);
`i` itself never wraps, since `MaxRetries` is a `uint8` as well, so
`i < MaxRetries` keeps `i + 1 ≤ 255`. The clock `now` is held fixed;
`lockedTo` and the payload reader are threaded through attempts. -/
def requestLoop (now : Int) (envs : Nat → NetEnv) :
    Nat → Nat → Int → BytesReader → LoopOut
  | 0, _, _, _ =>
    { raw := none, err := none, exhausted := true, events := [], sent := [] }
  | fuel + 1, i, lockedTo, reader =>
    let att := handleRequest lockedTo now reader (envs (i + 1))
    if att.finished then
      { raw := att.raw, err := att.err, exhausted := false,
        events := [Ev.attempt (i + 1)], sent := [att.sent] }
    else
      let rest := requestLoop now envs fuel (i + 1) att.lockedToAfter att.readerAfter
      { raw := rest.raw, err := rest.err, exhausted := rest.exhausted,
        events := Ev.attempt (i + 1) :: Ev.backoffSleep (250 * (i + 1) % 256) :: rest.events,
        sent := att.sent :: rest.sent }

/-- What a whole `Request` call returns and does. -/
structure RequestOut where
  raw : Option (List Char)
  err : Option String
  events : List Ev
  sent : List (Option (List Char))
deriving DecidableEq, Repr

/-- The single `bytes.Reader` `Request` builds before its loop from the
patched `json.Marshal` image of the payload (`none` models a nil
`jsonPayload`, for which the `io.Reader` stays nil: no bytes to send). -/
def initReader (payloadRaw : Option (List Char)) : BytesReader :=
  match payloadRaw with
  | some raw => ⟨patchBody raw, 0⟩
  | none => ⟨[], 0⟩

/-- `BaseRestClient.Request`. The payload is represented by its
`json.Marshal` image (`payloadRaw`). Mirrors the source: marshal and patch
the payload into a single `bytes.Reader` before the loop; then check
`lockedTo` once (the `IsZero`/`time.Until` block, emitted as `gateCheck`)
and sleep out any future deadline; then run the bounded attempt loop; a
fall-out of the loop yields the exhausted-retries error naming the method
and route. -/
def Request (maxRetries : Nat) (lockedTo now : Int) (method route : String)
    (payloadRaw : Option (List Char)) (envs : Nat → NetEnv) : RequestOut :=
  let out := requestLoop now envs maxRetries 0 lockedTo (initReader payloadRaw)
  if out.exhausted then
    { raw := none,
      err := some ("failed to make http request in set limit of attempts to "
        ++ method ++ " :: " ++ route
        ++ " (check internet connection and/or app credentials)"),
      events := Ev.gateCheck :: out.events, sent := out.sent }
  else
    { raw := out.raw, err := out.err,
      events := Ev.gateCheck :: out.events, sent := out.sent }

/-- Default `MaxRetries` installed by `NewBaseRestClient`. -/
def defaultMaxRetries : Nat := 3

/-- The `sync.RWMutex` operations one loop iteration of `Request` performs,
in order: `mu.RLock()`, then whatever `handleRequest` does on `rest.mu`,
then — only when the attempt did not finish — `mu.RUnlock()` (the source
returns without `RUnlock` on the finished path). -/
def requestIterationLockOps (lockedTo now : Int) (reader : BytesReader)
    (env : NetEnv) : List LockOp :=
  let att := handleRequest lockedTo now reader env
  LockOp.rlock :: (att.lockOps ++ if att.finished then [] else [LockOp.runlock])

/-- Single-goroutine semantics of Go `sync.RWMutex` when no other goroutine
holds or requests the lock: `r` counts the read locks the goroutine holds;
`RLock` is granted immediately, `Lock` waits until every read lock is
released — so a goroutine executing `Lock` while itself holding a read
lock blocks forever, and the trace deadlocks (`sync.RWMutex` is not
reentrant). Returns `true` when the trace reaches such a state. -/
def selfDeadlocks : List LockOp → Nat → Bool
  | [], _ => false
  | LockOp.rlock :: rest, r => selfDeadlocks rest (r + 1)
  | LockOp.runlock :: rest, r => selfDeadlocks rest (r - 1)
  | LockOp.lock :: rest, r => if r = 0 then selfDeadlocks rest r else true
  | LockOp.unlock :: rest, r => selfDeadlocks rest r

/-- A file handed to `RequestWithFiles`: its `Stat().Name()` display name,
its content, and an optional `Stat()` failure. -/
structure GoFile where
  statName : String
  content : List Char
  statErr : Option String
deriving DecidableEq, Repr

/-- One part of the multipart body: the two `partHeader` fields and the
part content. -/
structure Part where
  contentDisposition : String
  contentType : String
  content : List Char
deriving DecidableEq, Repr

/-- Outcome of the multipart body construction of `RequestWithFiles`. -/
inductive BuildResult where
  /-- `len(files) == 0`: the call falls back to `Request`. -/
  | fallbackToRequest
  /-- `jsonPayload == nil` with files present: `writer` is the nil
  `*multipart.Writer` and `writer.CreatePart` dereferences it — a runtime
  panic, no body is produced. -/
  | panicNilWriter
  /-- A returned encoding error. -/
  | errored (msg : String)
  /-- The built body: the bytes sitting in the buffer before the first
  multipart boundary (`preamble`) and the parts in order. -/
  | ok (preamble : List Char) (parts : List Part)
deriving DecidableEq, Repr

/-- The per-file loop of `RequestWithFiles`: for index `itx` and file
`file`, a `Stat` failure aborts with an error naming the position;
otherwise a part with header `form-data; name="files[itx]";
filename="name"` and content type `application/octet-stream` carries the
file bytes (streamed via `io.Copy`). -/
def buildFileParts : List GoFile → Nat → Except String (List Part)
  | [], _ => Except.ok []
  | f :: rest, idx =>
    match f.statErr with
    | some e =>
      Except.error ("failed to read statistics of file[" ++ toString idx ++ "]: " ++ e)
    | none =>
      match buildFileParts rest (idx + 1) with
      | Except.error e => Except.error e
      | Except.ok ps =>
        Except.ok
          ({ contentDisposition := "form-data; name=\"files[" ++ toString idx
              ++ "]\"; filename=\"" ++ f.statName ++ "\"",
             contentType := "application/octet-stream",
             content := f.content } :: ps)

/-- The body construction of `BaseRestClient.RequestWithFiles`. Mirrors the
source: with an empty file list it falls back to `Request`; otherwise, when
a payload is present its patched `json.Marshal` image seeds the buffer
(`bytes.NewBuffer(bytes.Replace(raw, ...))`) — these bytes precede the
first boundary written by the `multipart.Writer` — and when the payload is
nil the writer is never created, so the unconditional
`writer.CreatePart(partHeader(..payload_json..))` dereferences a nil
pointer. The `payload_json` part content is a fresh
`json.NewEncoder(...).Encode(jsonPayload)` of the unpatched payload, i.e.
the raw marshal image plus a trailing newline; then come the file parts. -/
def RequestWithFilesBody (payloadRaw : Option (List Char)) (files : List GoFile) :
    BuildResult :=
  if files.isEmpty then BuildResult.fallbackToRequest
  else
    match payloadRaw with
    | none => BuildResult.panicNilWriter
    | some raw =>
      let preamble := patchBody raw
      let jsonPart : Part :=
        { contentDisposition := "form-data; name=\"payload_json\"",
          contentType := CONTENT_TYPE_JSON,
          content := raw ++ ['\n'] }
      match buildFileParts files 0 with
      | Except.error e => BuildResult.errored e
      | Except.ok ps => BuildResult.ok preamble (jsonPart :: ps)

/-- `bytes.Contains`: whether `pat` occurs as a contiguous subsequence. -/
def containsSeq (pat : List Char) : List Char → Bool
  | [] => pat.isEmpty
  | c :: rest => pat.isPrefixOf (c :: rest) || containsSeq pat rest

/-- The claim that the scheduler consults the gate before *every* attempt,
as a trace predicate: scanning left to right, each `attempt` event must be
preceded by a `gateCheck` event issued since the previous attempt. The
Boolean flag carries "a gate check has happened since the last attempt". -/
def gateBeforeEveryAttempt : List Ev → Bool → Bool
  | [], _ => true
  | Ev.gateCheck :: rest, _ => gateBeforeEveryAttempt rest true
  | Ev.attempt _ :: rest, ok => ok && gateBeforeEveryAttempt rest false
  | Ev.backoffSleep _ :: rest, ok => gateBeforeEveryAttempt rest ok

/-- A transport-level failure attempt: `HTTPClient.Do` fails (e.g. dial
failure), a retryable outcome. -/
def envTransportErr : NetEnv :=
  { newRequestErr := none, doErr := some "connection refused", statusCode := 0,
    status := "", bodyErr := none, respBody := [], rateParse := none }

/-- A 429 response whose body parses to `retry_after = 2.0`. -/
def env429 : NetEnv :=
  { newRequestErr := none, doErr := none, statusCode := 429,
    status := "429 Too Many Requests", bodyErr := none,
    respBody := [], rateParse := some 2 }

/-- A 429 response whose body parses to `retry_after = 0.5`. -/
def env429Half : NetEnv :=
  { newRequestErr := none, doErr := none, statusCode := 429,
    status := "429 Too Many Requests", bodyErr := none,
    respBody := [], rateParse := some (1 / 2) }

/-- A 429 response whose body is not the expected rate-limit JSON shape:
`json.Unmarshal` fails, the error is discarded, `rateErr` keeps its zero
value. -/
def env429NoParse : NetEnv :=
  { newRequestErr := none, doErr := none, statusCode := 429,
    status := "429 Too Many Requests", bodyErr := none,
    respBody := ['o', 'o', 'p', 's'], rateParse := none }

/-- A 404 response with a body. -/
def env404 : NetEnv :=
  { newRequestErr := none, doErr := none, statusCode := 404,
    status := "404 Not Found", bodyErr := none,
    respBody := ['g', 'o', 'n', 'e'], rateParse := none }

/-- A 204 no-content response. -/
def env204 : NetEnv :=
  { newRequestErr := none, doErr := none, statusCode := 204,
    status := "204 No Content", bodyErr := none,
    respBody := [], rateParse := none }

/-- A concrete file attachment whose `Stat` succeeds. -/
def fileA : GoFile := { statName := "a.txt", content := ['h', 'i'], statErr := none }

/-- The retry loop never performs the availability check: `gateCheck`
events come only from the prologue of `Request`. -/
theorem countGateChecks_requestLoop (now : Int) (envs : Nat → NetEnv) :
    ∀ (fuel i : Nat) (lockedTo : Int) (reader : BytesReader),
      countGateChecks (requestLoop now envs fuel i lockedTo reader).events = 0 := by
  intro fuel
  induction fuel with
  | zero => intro i lockedTo reader; rfl
  | succ n ih =>
    intro i lockedTo reader
    by_cases h : (handleRequest lockedTo now reader (envs (i + 1))).finished
    · simp [requestLoop, h, countGateChecks]
    · simp [requestLoop, h, countGateChecks, ih]

/-- When every attempt is a retryable failure, the loop runs out of fuel:
it performs exactly `fuel` attempts and sleeps `250·k mod 256`
microseconds (uint8 arithmetic) after the k-th attempt. -/
theorem requestLoop_all_retry (now : Int) (envs : Nat → NetEnv)
    (hretry : ∀ (i : Nat) (lt : Int) (rd : BytesReader),
      (handleRequest lt now rd (envs i)).finished = false) :
    ∀ (fuel i : Nat) (lockedTo : Int) (reader : BytesReader),
      (requestLoop now envs fuel i lockedTo reader).exhausted = true ∧
      countAttempts (requestLoop now envs fuel i lockedTo reader).events = fuel ∧
      backoffDelays (requestLoop now envs fuel i lockedTo reader).events
        = (List.range' (i + 1) fuel).map (fun k => 250 * k % 256) := by
  intro fuel
  induction fuel with
  | zero => intro i lockedTo reader; exact ⟨rfl, rfl, rfl⟩
  | succ n ih =>
    intro i lockedTo reader
    have h := hretry (i + 1) lockedTo reader
    obtain ⟨ih1, ih2, ih3⟩ := ih (i + 1)
      (handleRequest lockedTo now reader (envs (i + 1))).lockedToAfter
      (handleRequest lockedTo now reader (envs (i + 1))).readerAfter
    refine ⟨?_, ?_, ?_⟩
    · simp [requestLoop, h, ih1]
    · simp [requestLoop, h, countAttempts, ih2]
    · simp [requestLoop, h, backoffDelays, ih3, List.range'_succ]

/-- A non-204, non-429 response outside 2xx, with every stage succeeding,
yields the finished terminal record carrying the status line and the body
verbatim. -/
theorem handleRequest_terminal_eq (lockedTo now : Int) (rd : BytesReader) (env : NetEnv)
    (h1 : env.newRequestErr = none) (h2 : env.doErr = none) (h3 : env.bodyErr = none)
    (h4 : env.statusCode ≠ 429) (h5 : env.statusCode ≠ 204)
    (h6 : env.statusCode < 200 ∨ 299 < env.statusCode) :
    handleRequest lockedTo now rd env =
      { raw := none, err := some (env.status ++ " :: " ++ String.mk env.respBody),
        finished := true, lockedToAfter := lockedTo, installedDeadline := none,
        sleptUntil := none, bodyRead := true, sent := some (rd.data.drop rd.pos),
        readerAfter := ⟨rd.data, rd.data.length⟩, lockOps := [] } := by
  simp [handleRequest, h1, h2, h3, h4, h5, h6]

/-- A 204 response yields the finished success record with a nil body,
before any body read. -/
theorem handleRequest_204_eq (lockedTo now : Int) (rd : BytesReader) (env : NetEnv)
    (h1 : env.newRequestErr = none) (h2 : env.doErr = none)
    (h3 : env.statusCode = 204) :
    handleRequest lockedTo now rd env =
      { raw := none, err := none, finished := true, lockedToAfter := lockedTo,
        installedDeadline := none, sleptUntil := none, bodyRead := false,
        sent := some (rd.data.drop rd.pos),
        readerAfter := ⟨rd.data, rd.data.length⟩, lockOps := [] } := by
  simp [handleRequest, h1, h2, h3]

/-- A 429 response with every stage succeeding: the shared deadline is set
to `now + time.Second * time.Duration(retryAfter + 5)`, the attempt sleeps
until it, resets `lockedTo` to zero, and reports a retryable failure. -/
theorem handleRequest_429_eq (lockedTo now : Int) (rd : BytesReader) (env : NetEnv)
    (h1 : env.newRequestErr = none) (h2 : env.doErr = none) (h3 : env.bodyErr = none)
    (h4 : env.statusCode = 429) :
    handleRequest lockedTo now rd env =
      { raw := none, err := some "rate limit", finished := false, lockedToAfter := 0,
        installedDeadline :=
          some (now + nsPerSecond * goTrunc (env.rateParse.getD 0 + 5)),
        sleptUntil := some (now + nsPerSecond * goTrunc (env.rateParse.getD 0 + 5)),
        bodyRead := true, sent := some (rd.data.drop rd.pos),
        readerAfter := ⟨rd.data, rd.data.length⟩,
        lockOps := [LockOp.lock, LockOp.unlock, LockOp.lock, LockOp.unlock] } := by
  simp [handleRequest, h1, h2, h3, h4]

/-- When the first attempt finishes, `Request` returns its result at once:
one attempt, no backoff sleep. -/
theorem Request_first_finished (maxRetries : Nat) (hm : 1 ≤ maxRetries)
    (lockedTo now : Int) (method route : String) (payloadRaw : Option (List Char))
    (envs : Nat → NetEnv)
    (hfin : (handleRequest lockedTo now (initReader payloadRaw) (envs 1)).finished = true) :
    Request maxRetries lockedTo now method route payloadRaw envs =
      { raw := (handleRequest lockedTo now (initReader payloadRaw) (envs 1)).raw,
        err := (handleRequest lockedTo now (initReader payloadRaw) (envs 1)).err,
        events := [Ev.gateCheck, Ev.attempt 1],
        sent := [(handleRequest lockedTo now (initReader payloadRaw) (envs 1)).sent] } := by
  obtain ⟨n, rfl⟩ : ∃ n, maxRetries = n + 1 := ⟨maxRetries - 1, by omega⟩
  simp [Request, requestLoop, hfin]

/-- Claim C1 (code bug): the claim demands that no execution deadlocks and
that an attempt handling its own 429 can still install the new deadline.
In the source, `Request` holds `mu.RLock()` (rest.go:78) across
`handleRequest`, which on a 429 calls `mu.Lock()` (rest.go:190) on the same
non-reentrant `sync.RWMutex`; under the single-goroutine RWMutex semantics
of `selfDeadlocks`, the lock trace of one iteration whose attempt receives
a 429 reaches a state where the goroutine waits forever for itself. -/
theorem c1_rate_limit_self_deadlock :
    selfDeadlocks (requestIterationLockOps 0 0 ⟨[], 0⟩ env429) 0 = true := by decide

/-- Claim C2, counterexample: with three transport-failure attempts, the
trace of `Request` checks the gate only once, before the first attempt, so
the property "the scheduler consults the rate gate before every attempt"
(`gateBeforeEveryAttempt`) is false on a concrete execution. -/
theorem c2_gate_not_checked_before_every_attempt :
    gateBeforeEveryAttempt
      (Request 3 0 0 "POST" "/route" (some ['a']) (fun _ => envTransportErr)).events
      false = false := by decide

/-- Claim C2 (corrected): the scheduler consults the rate gate exactly
once, at the start of the call before the first attempt — the check block
is the head of every trace and no further `gateCheck` occurs, so retry
attempts are issued without re-consulting the shared deadline. -/
theorem c2_gate_checked_once_before_first_attempt (maxRetries : Nat)
    (lockedTo now : Int) (method route : String) (payloadRaw : Option (List Char))
    (envs : Nat → NetEnv) :
    (Request maxRetries lockedTo now method route payloadRaw envs).events.head?
        = some Ev.gateCheck ∧
    countGateChecks (Request maxRetries lockedTo now method route payloadRaw envs).events
        = 1 := by
  have h := countGateChecks_requestLoop now envs maxRetries 0 lockedTo (initReader payloadRaw)
  by_cases hx : (requestLoop now envs maxRetries 0 lockedTo (initReader payloadRaw)).exhausted
  · constructor
    · simp [Request, hx]
    · simp [Request, hx, countGateChecks, h]
  · constructor
    · simp [Request, hx]
    · simp [Request, hx, countGateChecks, h]

/-- Claim C3 (code bug): with one file and a nil payload the multipart
writer is never created and the unconditional `writer.CreatePart`
dereferences a nil pointer — no N-part body is produced; and with a
payload present the body does contain N+1 parts, but the patched marshal
image sits in the buffer before the first boundary, so the body is not
made of the parts alone. -/
theorem c3_nil_payload_multipart_panics :
    RequestWithFilesBody none [fileA] = BuildResult.panicNilWriter ∧
    RequestWithFilesBody (some ['x']) [fileA]
      = BuildResult.ok ['x']
          [{ contentDisposition := "form-data; name=\"payload_json\"",
             contentType := CONTENT_TYPE_JSON, content := ['x', '\n'] },
           { contentDisposition := "form-data; name=\"files[0]\"; filename=\"a.txt\"",
             contentType := "application/octet-stream", content := ['h', 'i'] }] ∧
    (['x'] : List Char) ≠ [] := by
  exact ⟨by decide, by decide, by decide⟩

/-- Claim C4, counterexample: a 429 whose body parses to
`retry_after = 0.5` installs the deadline `now + 5` whole seconds
(`5000000000` ns past `now = 0`), not the claimed `now + (0.5 + 5)`
seconds (`5500000000` ns): `time.Duration(RetryAfter + 5)` truncates the
fractional part. -/
theorem c4_fractional_retry_after_truncated :
    (handleRequest 0 0 ⟨[], 0⟩ env429Half).installedDeadline = some 5000000000 ∧
    (5000000000 : Int) ≠ 5500000000 := by
  constructor
  · simp [handleRequest, env429Half, nsPerSecond]
    norm_num [goTrunc]
    rw [(by decide : Int.tdiv 11 2 = 5)]
    decide
  · decide

/-- Claim C4 (corrected): on a 429 with parsed `retry_after = r`, the gate
deadline is `now + ⌊r + 5⌋ₜ` whole seconds (`goTrunc` truncates toward
zero, discarding the fractional part of `r`), the attempt sleeps until
exactly that deadline, and the outcome is the retryable "rate limit"
failure; for `r = 2.0` the truncation is exact and the window is 7
seconds. -/
theorem c4_deadline_whole_seconds (lockedTo now : Int) (rd : BytesReader)
    (env : NetEnv) (r : Rat) (h1 : env.newRequestErr = none)
    (h2 : env.doErr = none) (h3 : env.bodyErr = none)
    (h4 : env.statusCode = 429) (h5 : env.rateParse = some r) :
    (handleRequest lockedTo now rd env).installedDeadline
        = some (now + nsPerSecond * goTrunc (r + 5)) ∧
    (handleRequest lockedTo now rd env).sleptUntil
        = some (now + nsPerSecond * goTrunc (r + 5)) ∧
    (handleRequest lockedTo now rd env).finished = false ∧
    (handleRequest lockedTo now rd env).err = some "rate limit" ∧
    goTrunc ((2 : Rat) + 5) = 7 := by
  rw [handleRequest_429_eq lockedTo now rd env h1 h2 h3 h4]
  refine ⟨by simp [h5], by simp [h5], rfl, rfl, ?_⟩
  rw [(by norm_num : ((2 : Rat) + 5) = 7)]
  norm_num [goTrunc]

/-- Witness for C4: the corrected statement at `retry_after = 2.0`. -/
theorem c4_deadline_whole_seconds_witness :
    (handleRequest 0 0 ⟨[], 0⟩ env429).installedDeadline
        = some (0 + nsPerSecond * goTrunc ((2 : Rat) + 5)) ∧
    (handleRequest 0 0 ⟨[], 0⟩ env429).sleptUntil
        = some (0 + nsPerSecond * goTrunc ((2 : Rat) + 5)) ∧
    (handleRequest 0 0 ⟨[], 0⟩ env429).finished = false ∧
    (handleRequest 0 0 ⟨[], 0⟩ env429).err = some "rate limit" ∧
    goTrunc ((2 : Rat) + 5) = 7 :=
  c4_deadline_whole_seconds 0 0 ⟨[], 0⟩ env429 2 rfl rfl rfl rfl rfl

/-- Claim C5 (code bug): the JSON body is materialized once, but the single
`bytes.Reader` is consumed by the first attempt and never rewound, so the
second and third attempts hand the transport an empty byte sequence — not
the same bytes as the first attempt, contradicting the claim. -/
theorem c5_retry_attempt_sends_empty_body :
    (Request 3 0 0 "POST" "/msg" (some ['a', 'b', 'c']) (fun _ => env429)).sent
        = [some ['a', 'b', 'c'], some [], some []] ∧
    (some ['a', 'b', 'c'] : Option (List Char)) ≠ some [] := by
  exact ⟨by decide, by decide⟩

/-- Claim C6, counterexample: with the default budget of three attempts,
all retryable, the backoff sleeps are 250, 244 and 238 microseconds — the
`uint8` product `250*i` (rest.go:84) wraps modulo 256 — so the claimed
strictly-growing delay is false on a concrete execution. -/
theorem c6_delays_not_strictly_increasing :
    backoffDelays (Request 3 0 0 "POST" "/w6" (some ['a'])
        (fun _ => envTransportErr)).events = [250, 244, 238] ∧
    ¬ List.Pairwise (· < ·) ([250, 244, 238] : List Nat) := by
  exact ⟨by decide, by decide⟩

/-- Claim C6 (corrected): when every attempt reports a retryable failure,
`Request` performs exactly `MaxRetries` attempts and returns the
exhausted-retries error naming the method and the route
(`NewBaseRestClient` sets `MaxRetries` to 3); after the k-th attempt it
sleeps `250·k mod 256` microseconds — the product is computed in the
`uint8` of the loop counter, so the delays wrap instead of growing
strictly (250, 244, 238 for the default budget). -/
theorem c6_exhausted_after_max_retries (maxRetries : Nat) (lockedTo now : Int)
    (method route : String) (payloadRaw : Option (List Char)) (envs : Nat → NetEnv)
    (hretry : ∀ (i : Nat) (lt : Int) (rd : BytesReader),
      (handleRequest lt now rd (envs i)).finished = false) :
    (Request maxRetries lockedTo now method route payloadRaw envs).raw = none ∧
    (Request maxRetries lockedTo now method route payloadRaw envs).err
        = some ("failed to make http request in set limit of attempts to "
            ++ method ++ " :: " ++ route
            ++ " (check internet connection and/or app credentials)") ∧
    countAttempts (Request maxRetries lockedTo now method route payloadRaw envs).events
        = maxRetries ∧
    backoffDelays (Request maxRetries lockedTo now method route payloadRaw envs).events
        = (List.range' 1 maxRetries).map (fun k => 250 * k % 256) ∧
    defaultMaxRetries = 3 := by
  obtain ⟨hex, hcount, hdelays⟩ :=
    requestLoop_all_retry now envs hretry maxRetries 0 lockedTo (initReader payloadRaw)
  refine ⟨by simp [Request, hex], by simp [Request, hex], ?_, ?_, rfl⟩
  · simp [Request, hex, countAttempts, hcount]
  · simp only [Request, hex, if_true, backoffDelays, hdelays]

/-- Witness for C6: three transport failures exhaust the default budget,
with wrapped delays 250, 244, 238 microseconds. -/
theorem c6_exhausted_after_max_retries_witness :
    (Request 3 0 0 "POST" "/w6" (some ['a']) (fun _ => envTransportErr)).raw = none ∧
    (Request 3 0 0 "POST" "/w6" (some ['a']) (fun _ => envTransportErr)).err
        = some ("failed to make http request in set limit of attempts to "
            ++ "POST" ++ " :: " ++ "/w6"
            ++ " (check internet connection and/or app credentials)") ∧
    countAttempts (Request 3 0 0 "POST" "/w6" (some ['a'])
        (fun _ => envTransportErr)).events = 3 ∧
    backoffDelays (Request 3 0 0 "POST" "/w6" (some ['a'])
        (fun _ => envTransportErr)).events
        = (List.range' 1 3).map (fun k => 250 * k % 256) ∧
    defaultMaxRetries = 3 :=
  c6_exhausted_after_max_retries 3 0 0 "POST" "/w6" (some ['a'])
    (fun _ => envTransportErr) (fun _ _ _ => rfl)

/-- Claim C7 (code bug): the null-to-empty-array patch holds on the plain
JSON path (third conjunct: the patched body has no `null` pattern left),
but on the multipart path the `payload_json` part is re-encoded from the
unpatched payload, so for a payload whose marshal image is `[null]` the
produced body still carries the `null` inside its first part — the patched
bytes end up only in the stray preamble before the first boundary. -/
theorem c7_multipart_json_part_keeps_null :
    RequestWithFilesBody (some ['[', 'n', 'u', 'l', 'l', ']']) [fileA]
      = BuildResult.ok ['[', '[', ']', ']']
          [{ contentDisposition := "form-data; name=\"payload_json\"",
             contentType := CONTENT_TYPE_JSON,
             content := ['[', 'n', 'u', 'l', 'l', ']', '\n'] },
           { contentDisposition := "form-data; name=\"files[0]\"; filename=\"a.txt\"",
             contentType := "application/octet-stream", content := ['h', 'i'] }] ∧
    containsSeq requestSwapNullArray ['[', 'n', 'u', 'l', 'l', ']', '\n'] = true ∧
    containsSeq requestSwapNullArray (patchBody ['[', 'n', 'u', 'l', 'l', ']'])
        = false := by
  exact ⟨by decide, by decide, by decide⟩

/-- Claim C8 (confirmed): a response outside 2xx that is neither 429 nor
204, with all stages succeeding, makes the call return after the first
attempt — one attempt, no retry — with the terminal error carrying the
status line and the response body verbatim. -/
theorem c8_non2xx_terminal_first_attempt (maxRetries : Nat) (hm : 1 ≤ maxRetries)
    (lockedTo now : Int) (method route : String) (payloadRaw : Option (List Char))
    (env : NetEnv) (h1 : env.newRequestErr = none) (h2 : env.doErr = none)
    (h3 : env.bodyErr = none) (h4 : env.statusCode ≠ 429) (h5 : env.statusCode ≠ 204)
    (h6 : env.statusCode < 200 ∨ 299 < env.statusCode) :
    (Request maxRetries lockedTo now method route payloadRaw (fun _ => env)).raw
        = none ∧
    (Request maxRetries lockedTo now method route payloadRaw (fun _ => env)).err
        = some (env.status ++ " :: " ++ String.mk env.respBody) ∧
    countAttempts (Request maxRetries lockedTo now method route payloadRaw
        (fun _ => env)).events = 1 := by
  have hq := handleRequest_terminal_eq lockedTo now (initReader payloadRaw) env
    h1 h2 h3 h4 h5 h6
  have hr := Request_first_finished maxRetries hm lockedTo now method route payloadRaw
    (fun _ => env) (by rw [hq])
  rw [hr]
  exact ⟨by rw [hq], by rw [hq], by simp [countAttempts]⟩

/-- Witness for C8: a 404 with default budget returns after one attempt. -/
theorem c8_non2xx_terminal_first_attempt_witness :
    (Request 3 0 0 "GET" "/w8" none (fun _ => env404)).raw = none ∧
    (Request 3 0 0 "GET" "/w8" none (fun _ => env404)).err
        = some (env404.status ++ " :: " ++ String.mk env404.respBody) ∧
    countAttempts (Request 3 0 0 "GET" "/w8" none (fun _ => env404)).events = 1 :=
  c8_non2xx_terminal_first_attempt 3 (by decide) 0 0 "GET" "/w8" none env404
    rfl rfl rfl (by decide) (by decide) (by decide)

/-- Claim C9 (confirmed): a 204 response makes the call return success with
a nil byte payload and no error after a single attempt, and the handling
attempt never invokes the body read. -/
theorem c9_204_success_empty (maxRetries : Nat) (hm : 1 ≤ maxRetries)
    (lockedTo now : Int) (method route : String) (payloadRaw : Option (List Char))
    (rd : BytesReader) (env : NetEnv) (h1 : env.newRequestErr = none)
    (h2 : env.doErr = none) (h3 : env.statusCode = 204) :
    (Request maxRetries lockedTo now method route payloadRaw (fun _ => env)).raw
        = none ∧
    (Request maxRetries lockedTo now method route payloadRaw (fun _ => env)).err
        = none ∧
    countAttempts (Request maxRetries lockedTo now method route payloadRaw
        (fun _ => env)).events = 1 ∧
    (handleRequest lockedTo now rd env).bodyRead = false := by
  have hq := handleRequest_204_eq lockedTo now (initReader payloadRaw) env h1 h2 h3
  have hr := Request_first_finished maxRetries hm lockedTo now method route payloadRaw
    (fun _ => env) (by rw [hq])
  rw [hr]
  refine ⟨by rw [hq], by rw [hq], by simp [countAttempts], ?_⟩
  rw [handleRequest_204_eq lockedTo now rd env h1 h2 h3]

/-- Witness for C9: a concrete 204 response. -/
theorem c9_204_success_empty_witness :
    (Request 3 0 0 "DELETE" "/w9" none (fun _ => env204)).raw = none ∧
    (Request 3 0 0 "DELETE" "/w9" none (fun _ => env204)).err = none ∧
    countAttempts (Request 3 0 0 "DELETE" "/w9" none (fun _ => env204)).events = 1 ∧
    (handleRequest 0 0 ⟨[], 0⟩ env204).bodyRead = false :=
  c9_204_success_empty 3 (by decide) 0 0 "DELETE" "/w9" none ⟨[], 0⟩ env204
    rfl rfl rfl

/-- Claim C10 (confirmed): on a 429 whose body does not parse as the
rate-limit JSON shape, the parse failure is ignored, `retry_after` defaults
to the zero value, the gate deadline is `now + 5` seconds exactly (the
safety margin alone), the attempt sleeps until that deadline, then resets
the shared deadline to the unset zero value and reports the retryable
"rate limit" failure. -/
theorem c10_unparseable_429_five_seconds (lockedTo now : Int) (rd : BytesReader)
    (env : NetEnv) (h1 : env.newRequestErr = none) (h2 : env.doErr = none)
    (h3 : env.bodyErr = none) (h4 : env.statusCode = 429)
    (h5 : env.rateParse = none) :
    (handleRequest lockedTo now rd env).installedDeadline
        = some (now + nsPerSecond * 5) ∧
    (handleRequest lockedTo now rd env).sleptUntil = some (now + nsPerSecond * 5) ∧
    (handleRequest lockedTo now rd env).lockedToAfter = 0 ∧
    (handleRequest lockedTo now rd env).finished = false ∧
    (handleRequest lockedTo now rd env).raw = none ∧
    (handleRequest lockedTo now rd env).err = some "rate limit" := by
  have hg5 : goTrunc (5 : Rat) = 5 := by
    norm_num [goTrunc]
  rw [handleRequest_429_eq lockedTo now rd env h1 h2 h3 h4]
  simp [h5, hg5]

/-- Witness for C10: a 429 with an unparseable body. -/
theorem c10_unparseable_429_five_seconds_witness :
    (handleRequest 0 0 ⟨[], 0⟩ env429NoParse).installedDeadline
        = some (0 + nsPerSecond * 5) ∧
    (handleRequest 0 0 ⟨[], 0⟩ env429NoParse).sleptUntil
        = some (0 + nsPerSecond * 5) ∧
    (handleRequest 0 0 ⟨[], 0⟩ env429NoParse).lockedToAfter = 0 ∧
    (handleRequest 0 0 ⟨[], 0⟩ env429NoParse).finished = false ∧
    (handleRequest 0 0 ⟨[], 0⟩ env429NoParse).raw = none ∧
    (handleRequest 0 0 ⟨[], 0⟩ env429NoParse).err = some "rate limit" :=
  c10_unparseable_429_five_seconds 0 0 ⟨[], 0⟩ env429NoParse rfl rfl rfl rfl rfl

end Ashara
